import Mathlib

/-
Verification of the ad-budget-management-system enforcement/ledger engine
(src/ads/services.py, src/ads/models.py) against its specification.

Shallow embedding conventions:
* `Decimal` money amounts are exact decimal numbers; all operations used by
  the engine (+, comparison, zeroing) are exact, so they are modelled by `Int`.
* Dates (`timezone.now().date()`) are opaque day tokens modelled by `Nat`;
  datetimes used for the budget-check throttle are minute timestamps (`Int`).
* `datetime.time` values compare lexicographically on (hour, minute, second),
  modelled by `PyTime`.
* Django rows are structure values; a queryset sweep is a structurally
  recursive pass over the list of rows, carrying the row updates, the list of
  created `SpendRecord`s and the mutated `TaskMetrics`.
* A raised exception that escapes a service function is modelled by an
  `Option String` (the message) in the result; Python mutations performed
  before the raise (committed row updates, metrics increments) survive it,
  exactly as in the source, so they are part of the returned state.
* The persistent store can fail on a write; each row of a batch carries a
  Boolean oracle saying whether the store write for that row succeeds.
-/

namespace AdBudget

/-- Money: exact `Decimal` currency values of the source, embedded as `Int`. -/
abbrev Money := Int

/-- ads/models.py `Brand`: daily and monthly budgets. -/
structure Brand where
  daily_budget : Money
  monthly_budget : Money
  deriving DecidableEq

/-- Python `datetime.time` restricted to the fields the engine uses;
comparison is lexicographic on (hour, minute, second). -/
structure PyTime where
  hour : Nat
  minute : Nat
  second : Nat
  deriving DecidableEq

/-- Python `time.__le__`: lexicographic comparison of (hour, minute, second). -/
def PyTime.le (a b : PyTime) : Bool :=
  decide (a.hour < b.hour) ||
    (decide (a.hour = b.hour) &&
      (decide (a.minute < b.minute) ||
        (decide (a.minute = b.minute) && decide (a.second <= b.second))))

/-- A `datetime.time` value as produced by Python: bounded fields. -/
def PyTime.valid (t : PyTime) : Prop :=
  t.hour < 24 ∧ t.minute < 60 ∧ t.second < 60

instance (t : PyTime) : Decidable t.valid := by
  unfold PyTime.valid
  infer_instance

/-- Seconds since midnight; the specification-side reading of a time of day. -/
def PyTime.toSec (t : PyTime) : Nat :=
  t.hour * 3600 + t.minute * 60 + t.second

/-- ads/models.py `DAYS_OF_WEEK`. -/
def DAYS_OF_WEEK : List String :=
  ["mon", "tue", "wed", "thu", "fri", "sat", "sun"]

/-- ads/models.py `DaypartingSchedule`; `days_of_week` is stored as a
comma-separated string, modelled here as its list of split components. -/
structure DaypartingSchedule where
  start_time : PyTime
  end_time : PyTime
  days_of_week : List String
  deriving DecidableEq

/-- ads/models.py `Campaign`. -/
structure Campaign where
  id : Nat
  brand : Brand
  daily_spend : Money
  monthly_spend : Money
  is_active : Bool
  dayparting_schedule : Option DaypartingSchedule
  last_daily_reset : Option Nat
  last_monthly_reset : Option Nat
  budget_check_frequency_minutes : Option Nat
  last_budget_check : Option Int
  deriving DecidableEq

/-- ads/models.py `SpendRecord`. `timestamp`, `created_at` and `updated_at`
are auto-stamped by the store; they carry opaque clock values. -/
structure SpendRecord where
  pk : Option Nat
  campaign_id : Nat
  amount : Money
  timestamp : Nat
  type : String
  created_by : Option String
  source : String
  daily_spend_before : Option Money
  daily_spend_after : Option Money
  monthly_spend_before : Option Money
  monthly_spend_after : Option Money
  reference_id : Option String
  description : String
  created_at : Nat
  updated_at : Nat
  deriving DecidableEq

/-- ads/utils.py `TaskMetrics` (the counters; the task name and start time
only feed the log line). -/
structure TaskMetrics where
  campaigns_processed : Nat
  campaigns_paused : Nat
  campaigns_reactivated : Nat
  campaigns_reset : Nat
  errors : Nat
  deriving DecidableEq

/-- A fresh `TaskMetrics` as built at the start of each task run. -/
def TaskMetrics.init : TaskMetrics :=
  { campaigns_processed := 0, campaigns_paused := 0, campaigns_reactivated := 0
    campaigns_reset := 0, errors := 0 }

/-- settings.py `DEFAULT_BUDGET_CHECK_FREQUENCY` (env default). -/
def DEFAULT_BUDGET_CHECK_FREQUENCY : Nat := 15

/-- Message of the exception escaping a batch when a store write fails. -/
def SAVE_FAILED_MSG : String := "save failed"

/-- The `ValueError` message raised by `SpendRecord.save`. -/
def IMMUTABLE_MSG : String := "SpendRecord is immutable - only description can be updated"

def STR_impression : String := "impression"

def STR_system : String := "system"

def STR_daily : String := "daily"

def STR_monthly : String := "monthly"

def STR_mon : String := "mon"

def STR_empty : String := ""

/-- ads/services.py `pause_if_budget_exceeded` (success path: the store write
of `is_active` succeeds). Pauses when a counter strictly exceeds its budget;
returns whether it paused; the metrics pause counter is bumped on pause. -/
def pause_if_budget_exceeded (campaign : Campaign) (m : TaskMetrics) :
    Campaign × Bool × TaskMetrics :=
  if campaign.daily_spend > campaign.brand.daily_budget ∨
      campaign.monthly_spend > campaign.brand.monthly_budget then
    ({ campaign with is_active := false }, true,
      { m with campaigns_paused := m.campaigns_paused + 1 })
  else
    (campaign, false, m)

/-- ads/services.py `track_spend` (success path). Adds `amount` to both
counters, appends one `SpendRecord` with before/after snapshots, then runs
the budget check in the same transaction. Returns the updated campaign, the
created records, whether the campaign was paused, and the metrics. -/
def track_spend (campaign : Campaign) (amount : Money) (spend_type : String)
    (source : String) (created_by : Option String) (reference_id : Option String)
    (description : String) (m : TaskMetrics) :
    Campaign × List SpendRecord × Bool × TaskMetrics :=
  let daily_spend_before := campaign.daily_spend
  let monthly_spend_before := campaign.monthly_spend
  let campaign1 := { campaign with
    daily_spend := campaign.daily_spend + amount,
    monthly_spend := campaign.monthly_spend + amount }
  let record : SpendRecord := {
    pk := none
    campaign_id := campaign.id
    amount := amount
    timestamp := 0
    type := spend_type
    created_by := created_by
    source := source
    daily_spend_before := some daily_spend_before
    daily_spend_after := some campaign1.daily_spend
    monthly_spend_before := some monthly_spend_before
    monthly_spend_after := some campaign1.monthly_spend
    reference_id := reference_id
    description := description
    created_at := 0
    updated_at := 0 }
  let p := pause_if_budget_exceeded campaign1 m
  (p.1, [record], p.2.1, p.2.2)

/-- ads/services.py `create_spend_record_for_reset`. The campaign passed in
is the row as it stands when the helper runs, i.e. already zeroed by the
caller; the snapshots are read from it. -/
def create_spend_record_for_reset (campaign : Campaign) (reset_type : String)
    (amount : Money) (description : String) (today : Nat) : SpendRecord :=
  { pk := none
    campaign_id := campaign.id
    amount := amount
    timestamp := 0
    type := "budget_reset"
    created_by := some STR_system
    source := "system"
    daily_spend_before := some campaign.daily_spend
    daily_spend_after :=
      some (if reset_type = "monthly" then campaign.daily_spend else 0)
    monthly_spend_before := some campaign.monthly_spend
    monthly_spend_after :=
      some (if reset_type = "daily" then campaign.monthly_spend else 0)
    reference_id := some (reset_type ++ "_reset_" ++ toString today)
    description := reset_type.capitalize ++ " budget reset: " ++ description
    created_at := 0
    updated_at := 0 }

/-- Loop body of ads/services.py `reset_daily_spend` for one campaign row:
capture the old counter, zero `daily_spend`, stamp `last_daily_reset`,
reactivate when inactive and both budgets hold after the zeroing, and append
the audit record when the pre-reset counter was positive. -/
def reset_daily_campaign (today : Nat) (campaign : Campaign) (m : TaskMetrics) :
    Campaign × List SpendRecord × TaskMetrics :=
  let daily_spend_before := campaign.daily_spend
  let c1 := { campaign with daily_spend := 0, last_daily_reset := some today }
  let reactivated : Bool :=
    !c1.is_active && decide (c1.daily_spend ≤ c1.brand.daily_budget) &&
      decide (c1.monthly_spend ≤ c1.brand.monthly_budget)
  let c2 := if reactivated then { c1 with is_active := true } else c1
  let m1 := if reactivated then
      { m with campaigns_reactivated := m.campaigns_reactivated + 1 }
    else m
  let m2 := { m1 with campaigns_reset := m1.campaigns_reset + 1 }
  let records :=
    if daily_spend_before > 0 then
      [create_spend_record_for_reset c2 STR_daily daily_spend_before
        ("Reset daily spend from " ++ toString daily_spend_before ++ " to 0.00")
        today]
    else []
  (c2, records, m2)

/-- ads/services.py `reset_daily_spend`: sweep over all campaign rows; the
queryset excludes rows already stamped with today (those rows are untouched). -/
def reset_daily_spend (today : Nat) :
    List Campaign → TaskMetrics → List Campaign × List SpendRecord × TaskMetrics
  | [], m => ([], [], m)
  | c :: rest, m =>
    if c.last_daily_reset = some today then
      let r := reset_daily_spend today rest m
      (c :: r.1, r.2.1, r.2.2)
    else
      let s := reset_daily_campaign today c m
      let r := reset_daily_spend today rest s.2.2
      (s.1 :: r.1, s.2.1 ++ r.2.1, r.2.2)

/-- Loop body of ads/services.py `reset_monthly_spend` for one campaign row.
`first_of_month` is the marker value, `today` feeds the audit reference id. -/
def reset_monthly_campaign (today first_of_month : Nat) (campaign : Campaign)
    (m : TaskMetrics) : Campaign × List SpendRecord × TaskMetrics :=
  let monthly_spend_before := campaign.monthly_spend
  let c1 := { campaign with
    monthly_spend := 0, last_monthly_reset := some first_of_month }
  let reactivated : Bool :=
    !c1.is_active && decide (c1.daily_spend ≤ c1.brand.daily_budget) &&
      decide (c1.monthly_spend ≤ c1.brand.monthly_budget)
  let c2 := if reactivated then { c1 with is_active := true } else c1
  let m1 := if reactivated then
      { m with campaigns_reactivated := m.campaigns_reactivated + 1 }
    else m
  let m2 := { m1 with campaigns_reset := m1.campaigns_reset + 1 }
  let records :=
    if monthly_spend_before > 0 then
      [create_spend_record_for_reset c2 STR_monthly monthly_spend_before
        ("Reset monthly spend from " ++ toString monthly_spend_before ++ " to 0.00")
        today]
    else []
  (c2, records, m2)

/-- ads/services.py `reset_monthly_spend`: sweep over all campaign rows; the
queryset excludes rows already stamped with the first of the current month. -/
def reset_monthly_spend (today first_of_month : Nat) :
    List Campaign → TaskMetrics → List Campaign × List SpendRecord × TaskMetrics
  | [], m => ([], [], m)
  | c :: rest, m =>
    if c.last_monthly_reset = some first_of_month then
      let r := reset_monthly_spend today first_of_month rest m
      (c :: r.1, r.2.1, r.2.2)
    else
      let s := reset_monthly_campaign today first_of_month c m
      let r := reset_monthly_spend today first_of_month rest s.2.2
      (s.1 :: r.1, s.2.1 ++ r.2.1, r.2.2)

/-- ads/services.py `DaypartingWindow` (value object). -/
structure DaypartingWindow where
  start_time : PyTime
  end_time : PyTime
  days_of_week : List String
  deriving DecidableEq

/-- ads/services.py `is_now_in_window`, with the current weekday name and
time of day (read from `timezone.now()` in the source) passed explicitly. -/
def is_now_in_window (window : DaypartingWindow) (now_day : String)
    (now_time : PyTime) : Bool :=
  if now_day ∈ window.days_of_week then
    if PyTime.le window.start_time window.end_time then
      PyTime.le window.start_time now_time && PyTime.le now_time window.end_time
    else
      PyTime.le window.start_time now_time || PyTime.le now_time window.end_time
  else false

/-- One row of the periodic budget-check batch: the campaign plus the store
oracle for the `last_budget_check` stamp write of that row (`false` means the
store raises on that write). -/
structure CheckRow where
  campaign : Campaign
  stamp_save_ok : Bool
  deriving DecidableEq

/-- The effective check interval of ads/services.py
`check_spend_and_pause_service`: the per-campaign override when set, with
Python `or` treating an explicit 0 as unset. -/
def effective_frequency (c : Campaign) (default_freq : Nat) : Nat :=
  match c.budget_check_frequency_minutes with
  | some f => if f = 0 then default_freq else f
  | none => default_freq

/-- The per-row loop of ads/services.py `check_spend_and_pause_service`.
A due row is budget-checked and its `last_budget_check` stamped; when the
stamp write raises, the single `except` wrapping the whole loop counts the
error and re-raises, so the remaining rows are returned untouched while the
already-processed prefix keeps its committed updates. -/
def check_rows (default_freq : Nat) (now : Int) :
    List CheckRow → TaskMetrics → List Campaign × TaskMetrics × Option String
  | [], m => ([], m, none)
  | row :: rest, m =>
    let c := row.campaign
    let m1 := { m with campaigns_processed := m.campaigns_processed + 1 }
    let freq : Nat := effective_frequency c default_freq
    let last_check : Int := c.last_budget_check.getD (now - (freq : Int))
    if now ≥ last_check + (freq : Int) then
      let p := pause_if_budget_exceeded c m1
      if row.stamp_save_ok then
        let c2 := { p.1 with last_budget_check := some now }
        let r := check_rows default_freq now rest p.2.2
        (c2 :: r.1, r.2.1, r.2.2)
      else
        (p.1 :: rest.map CheckRow.campaign,
          { p.2.2 with errors := p.2.2.errors + 1 }, some SAVE_FAILED_MSG)
    else
      let r := check_rows default_freq now rest m1
      (c :: r.1, r.2.1, r.2.2)

/-- ads/services.py `check_spend_and_pause_service`: the queryset fetches
active campaigns; they are then processed page by page in order, which is the
in-order pass of `check_rows`. -/
def check_spend_and_pause_service (default_freq : Nat) (now : Int)
    (rows : List CheckRow) (m : TaskMetrics) :
    List Campaign × TaskMetrics × Option String :=
  check_rows default_freq now (rows.filter (fun r => r.campaign.is_active)) m

/-- Python `str.strip()`: remove leading and trailing whitespace
(executable embedding over the character list). -/
def pyStrip (s : String) : String :=
  String.mk
    (((s.data.dropWhile Char.isWhitespace).reverse.dropWhile
      Char.isWhitespace).reverse)

/-- One row of the dayparting sweep: the campaign plus the store oracle for
the `is_active` write of that row. -/
structure DayRow where
  campaign : Campaign
  save_ok : Bool
  deriving DecidableEq

/-- The per-row loop of ads/services.py `enforce_dayparting`. The days list
of a schedule is filtered to the components whose stripped form is a known
weekday (keeping the raw component). A failing `is_active` write hits the
single `except` wrapping the loop: the error is counted and re-raised, the
failing row and the remaining rows stay untouched. -/
def enforce_rows (now_day : String) (now_time : PyTime) :
    List DayRow → TaskMetrics → List Campaign × TaskMetrics × Option String
  | [], m => ([], m, none)
  | row :: rest, m =>
    let c := row.campaign
    let m1 := { m with campaigns_processed := m.campaigns_processed + 1 }
    match c.dayparting_schedule with
    | none =>
      let r := enforce_rows now_day now_time rest m1
      (c :: r.1, r.2.1, r.2.2)
    | some sched =>
      let days := sched.days_of_week.filter (fun d => decide (pyStrip d ∈ DAYS_OF_WEEK))
      let window : DaypartingWindow :=
        { start_time := sched.start_time, end_time := sched.end_time,
          days_of_week := days }
      if is_now_in_window window now_day now_time then
        if !c.is_active && decide (c.daily_spend ≤ c.brand.daily_budget) &&
            decide (c.monthly_spend ≤ c.brand.monthly_budget) then
          if row.save_ok then
            let c2 := { c with is_active := true }
            let m2 := { m1 with
              campaigns_reactivated := m1.campaigns_reactivated + 1 }
            let r := enforce_rows now_day now_time rest m2
            (c2 :: r.1, r.2.1, r.2.2)
          else
            (c :: rest.map DayRow.campaign,
              { m1 with errors := m1.errors + 1 }, some SAVE_FAILED_MSG)
        else
          let r := enforce_rows now_day now_time rest m1
          (c :: r.1, r.2.1, r.2.2)
      else
        if c.is_active then
          if row.save_ok then
            let c2 := { c with is_active := false }
            let m2 := { m1 with campaigns_paused := m1.campaigns_paused + 1 }
            let r := enforce_rows now_day now_time rest m2
            (c2 :: r.1, r.2.1, r.2.2)
          else
            (c :: rest.map DayRow.campaign,
              { m1 with errors := m1.errors + 1 }, some SAVE_FAILED_MSG)
        else
          let r := enforce_rows now_day now_time rest m1
          (c :: r.1, r.2.1, r.2.2)

/-- ads/services.py `enforce_dayparting`: the queryset excludes campaigns
without a dayparting schedule, then the loop runs in order. -/
def enforce_dayparting (now_day : String) (now_time : PyTime)
    (rows : List DayRow) (m : TaskMetrics) :
    List Campaign × TaskMetrics × Option String :=
  enforce_rows now_day now_time
    (rows.filter (fun r => r.campaign.dayparting_schedule.isSome)) m

/-- The columns of ads/models.py `SpendRecord`, for the `update_fields`
argument of `save`. -/
inductive SpendRecordField
  | campaign
  | amount
  | timestamp
  | type
  | created_by
  | source
  | daily_spend_before
  | daily_spend_after
  | monthly_spend_before
  | monthly_spend_after
  | reference_id
  | description
  | created_at
  | updated_at
  deriving DecidableEq

/-- ads/models.py `SpendRecord.save` allowed update fields. -/
def allowed_update_fields : List SpendRecordField :=
  [SpendRecordField.updated_at, SpendRecordField.description]

/-- Writing one named column of `incoming` over `stored` (the column-wise
UPDATE performed by Django for a field listed in `update_fields`). -/
def setField (stored incoming : SpendRecord) : SpendRecordField → SpendRecord
  | SpendRecordField.campaign => { stored with campaign_id := incoming.campaign_id }
  | SpendRecordField.amount => { stored with amount := incoming.amount }
  | SpendRecordField.timestamp => { stored with timestamp := incoming.timestamp }
  | SpendRecordField.type => { stored with type := incoming.type }
  | SpendRecordField.created_by => { stored with created_by := incoming.created_by }
  | SpendRecordField.source => { stored with source := incoming.source }
  | SpendRecordField.daily_spend_before =>
    { stored with daily_spend_before := incoming.daily_spend_before }
  | SpendRecordField.daily_spend_after =>
    { stored with daily_spend_after := incoming.daily_spend_after }
  | SpendRecordField.monthly_spend_before =>
    { stored with monthly_spend_before := incoming.monthly_spend_before }
  | SpendRecordField.monthly_spend_after =>
    { stored with monthly_spend_after := incoming.monthly_spend_after }
  | SpendRecordField.reference_id =>
    { stored with reference_id := incoming.reference_id }
  | SpendRecordField.description =>
    { stored with description := incoming.description }
  | SpendRecordField.created_at => { stored with created_at := incoming.created_at }
  | SpendRecordField.updated_at => { stored with updated_at := incoming.updated_at }

/-- ads/models.py `SpendRecord.save`. `stored` is the row in the store,
`self` the in-memory instance being saved, `update_fields` the keyword
argument (absent = `none`). On an update (`self.pk` set) the guard checks
that every field named in `update_fields` — defaulting to the empty list —
is allowed; it then delegates to the ORM save: all columns written when
`update_fields` is absent, only the named columns otherwise. Returns the row
as persisted, or the `ValueError`. -/
def SpendRecord.save (stored self : SpendRecord)
    (update_fields : Option (List SpendRecordField)) : Except String SpendRecord :=
  if self.pk.isSome then
    if (update_fields.getD []).all (fun f => decide (f ∈ allowed_update_fields)) then
      match update_fields with
      | none => Except.ok self
      | some flds => Except.ok (flds.foldl (fun acc f => setField acc self f) stored)
    else
      Except.error IMMUTABLE_MSG
  else
    Except.ok self

/-- Every column of a `SpendRecord` except `description` and `updated_at`:
the write-once part of the ledger row. -/
def SpendRecord.core (r : SpendRecord) :=
  (r.pk, r.campaign_id, r.amount, r.timestamp, r.type, r.created_by, r.source,
   r.daily_spend_before, r.daily_spend_after, r.monthly_spend_before,
   r.monthly_spend_after, r.reference_id, r.created_at)

/-- A campaign row with no schedule, no reset markers and no check history. -/
def mkCampaign (id : Nat) (db mb ds ms : Money) (act : Bool) : Campaign :=
  { id := id
    brand := { daily_budget := db, monthly_budget := mb }
    daily_spend := ds
    monthly_spend := ms
    is_active := act
    dayparting_schedule := none
    last_daily_reset := none
    last_monthly_reset := none
    budget_check_frequency_minutes := none
    last_budget_check := none }

/-- An active campaign within both budgets, used as a concrete input. -/
def activeCampaign : Campaign := mkCampaign 1 100 1000 10 50 true

/-- A paused campaign whose daily spend strictly exceeds its daily budget. -/
def pausedOverBudget : Campaign := mkCampaign 1 100 1000 150 200 false

/-- An active campaign with both counters at 50 under budgets (100, 1000). -/
def negAmountCampaign : Campaign := mkCampaign 1 100 1000 50 50 true

/-- A paused campaign with daily_spend 80 and monthly_spend 1200 under
budgets (100, 1000): still over its monthly budget after a daily reset. -/
def pausedOverMonthly : Campaign := mkCampaign 1 100 1000 80 1200 false

/-- The specification's overnight example window: 22:00 to 06:00, Mondays. -/
def overnightWindow : DaypartingWindow :=
  { start_time := { hour := 22, minute := 0, second := 0 }
    end_time := { hour := 6, minute := 0, second := 0 }
    days_of_week := [STR_mon] }

/-- 02:00, inside the overnight wraparound. -/
def twoAM : PyTime := { hour := 2, minute := 0, second := 0 }

/-- A persisted ledger row (primary key assigned by the store). -/
def storedLedgerRow : SpendRecord :=
  { pk := some 1
    campaign_id := 1
    amount := 25
    timestamp := 0
    type := STR_impression
    created_by := none
    source := STR_system
    daily_spend_before := some 10
    daily_spend_after := some 35
    monthly_spend_before := some 50
    monthly_spend_after := some 75
    reference_id := none
    description := STR_empty
    created_at := 0
    updated_at := 0 }

/-- The same row with its sealed `amount` column changed in memory. -/
def tamperedLedgerRow : SpendRecord := { storedLedgerRow with amount := 999 }

/-- A due, over-budget row whose `last_budget_check` stamp write fails. -/
def failRow : CheckRow :=
  { campaign := mkCampaign 1 100 1000 150 200 true, stamp_save_ok := false }

/-- A due, over-budget row whose store writes succeed. -/
def nextRow : CheckRow :=
  { campaign := mkCampaign 2 100 1000 150 200 true, stamp_save_ok := true }

/-- A due row within budget whose store writes succeed. -/
def okRow : CheckRow :=
  { campaign := mkCampaign 5 100 1000 10 20 true, stamp_save_ok := true }

/-- A 09:00-17:00 Monday schedule. -/
def mondayNineToFive : DaypartingSchedule :=
  { start_time := { hour := 9, minute := 0, second := 0 }
    end_time := { hour := 17, minute := 0, second := 0 }
    days_of_week := [STR_mon] }

/-- An active scheduled campaign whose `is_active` write fails. -/
def dayFailRow : DayRow :=
  { campaign := { mkCampaign 3 100 1000 0 0 true with
      dayparting_schedule := some mondayNineToFive }
    save_ok := false }

/-- An active scheduled campaign whose store writes succeed. -/
def daySecondRow : DayRow :=
  { campaign := { mkCampaign 4 100 1000 0 0 true with
      dayparting_schedule := some mondayNineToFive }
    save_ok := true }

/-- C2: `pause_if_budget_exceeded` sets the campaign inactive iff
`daily_spend > brand.daily_budget` or `monthly_spend > brand.monthly_budget`
(strict), reports a pause exactly under that predicate, and leaves the
campaign, the report and the metrics untouched exactly when both counters
are less than or equal to their budgets — so spend equal to a budget does
not pause. -/
theorem pause_iff_strictly_over_budget (c : Campaign) (m : TaskMetrics) :
    ((pause_if_budget_exceeded c m).1.is_active =
      (c.is_active && !(decide (c.daily_spend > c.brand.daily_budget ∨
        c.monthly_spend > c.brand.monthly_budget)))) ∧
    ((pause_if_budget_exceeded c m).2.1 = true ↔
      (c.daily_spend > c.brand.daily_budget ∨
        c.monthly_spend > c.brand.monthly_budget)) ∧
    ((pause_if_budget_exceeded c m) = (c, false, m) ↔
      (c.daily_spend ≤ c.brand.daily_budget ∧
        c.monthly_spend ≤ c.brand.monthly_budget)) := by
  unfold pause_if_budget_exceeded
  by_cases h : c.daily_spend > c.brand.daily_budget ∨
      c.monthly_spend > c.brand.monthly_budget
  · refine ⟨by simp [h], by simp [h], ?_⟩
    simp only [if_pos h, Prod.ext_iff]
    constructor
    · rintro ⟨-, hb, -⟩
      exact absurd hb (by simp)
    · rintro ⟨h1, h2⟩
      rcases h with h3 | h3
      · exact absurd h3 (not_lt.mpr h1)
      · exact absurd h3 (not_lt.mpr h2)
  · have hn := h
    refine ⟨by simp [h], by simp [h], ?_⟩
    simp only [if_neg h]
    push_neg at hn
    simp [hn.1, hn.2]

/-- C9 counterexample: an already-paused campaign that is over budget is not
a no-op returning false — the call returns true (and records a pause). -/
theorem pause_returns_true_on_paused_campaign :
    pausedOverBudget.is_active = false ∧
    (pause_if_budget_exceeded pausedOverBudget TaskMetrics.init).2.1 = true := by
  decide

/-- C9 amended: on an already-paused campaign the call leaves every stored
field unchanged, but it returns true exactly when a counter strictly exceeds
its budget (the function never consults `is_active`); it returns false only
for a paused campaign within both budgets. -/
theorem pause_on_paused_campaign (c : Campaign) (m : TaskMetrics)
    (h : c.is_active = false) :
    (pause_if_budget_exceeded c m).1 = c ∧
    ((pause_if_budget_exceeded c m).2.1 = true ↔
      (c.daily_spend > c.brand.daily_budget ∨
        c.monthly_spend > c.brand.monthly_budget)) := by
  unfold pause_if_budget_exceeded
  by_cases hov : c.daily_spend > c.brand.daily_budget ∨
      c.monthly_spend > c.brand.monthly_budget
  · refine ⟨?_, by simp [hov]⟩
    simp only [if_pos hov]
    cases c
    simp_all
  · exact ⟨by simp [hov], by simp [hov]⟩

/-- C9 amended witness at the concrete paused over-budget campaign. -/
theorem pause_on_paused_campaign_witness :
    pausedOverBudget.is_active = false ∧
    ((pause_if_budget_exceeded pausedOverBudget TaskMetrics.init).1 =
        pausedOverBudget ∧
      ((pause_if_budget_exceeded pausedOverBudget TaskMetrics.init).2.1 = true ↔
        (pausedOverBudget.daily_spend > pausedOverBudget.brand.daily_budget ∨
          pausedOverBudget.monthly_spend >
            pausedOverBudget.brand.monthly_budget))) :=
  ⟨by decide,
    pause_on_paused_campaign pausedOverBudget TaskMetrics.init (by decide)⟩

/-- C1: for a non-negative amount, a successful `track_spend` adds the
amount to both counters and creates exactly one `SpendRecord` whose daily
and monthly after-snapshots equal the corresponding before-snapshots plus
the amount. -/
theorem track_spend_adds_amount_and_ledger_entry (c : Campaign) (a : Money)
    (ty src : String) (cb rid : Option String) (d : String) (m : TaskMetrics)
    (h : 0 ≤ a) :
    (track_spend c a ty src cb rid d m).1.daily_spend = c.daily_spend + a ∧
    (track_spend c a ty src cb rid d m).1.monthly_spend = c.monthly_spend + a ∧
    ∃ rec, (track_spend c a ty src cb rid d m).2.1 = [rec] ∧
      rec.amount = a ∧
      rec.daily_spend_before = some c.daily_spend ∧
      rec.daily_spend_after = some (c.daily_spend + a) ∧
      rec.monthly_spend_before = some c.monthly_spend ∧
      rec.monthly_spend_after = some (c.monthly_spend + a) := by
  simp only [track_spend, pause_if_budget_exceeded]
  split
  · exact ⟨rfl, rfl, ⟨_, rfl, rfl, rfl, rfl, rfl, rfl⟩⟩
  · exact ⟨rfl, rfl, ⟨_, rfl, rfl, rfl, rfl, rfl, rfl⟩⟩

/-- C1 witness at a concrete campaign and amount. -/
theorem track_spend_adds_amount_witness :
    (0 : Money) ≤ 25 ∧
    ((track_spend activeCampaign 25 STR_impression STR_system none none
        STR_empty TaskMetrics.init).1.daily_spend =
        activeCampaign.daily_spend + 25 ∧
      (track_spend activeCampaign 25 STR_impression STR_system none none
        STR_empty TaskMetrics.init).1.monthly_spend =
        activeCampaign.monthly_spend + 25 ∧
      ∃ rec, (track_spend activeCampaign 25 STR_impression STR_system none none
          STR_empty TaskMetrics.init).2.1 = [rec] ∧
        rec.amount = 25 ∧
        rec.daily_spend_before = some activeCampaign.daily_spend ∧
        rec.daily_spend_after = some (activeCampaign.daily_spend + 25) ∧
        rec.monthly_spend_before = some activeCampaign.monthly_spend ∧
        rec.monthly_spend_after = some (activeCampaign.monthly_spend + 25)) :=
  ⟨by decide,
    track_spend_adds_amount_and_ledger_entry activeCampaign 25 STR_impression
      STR_system none none STR_empty TaskMetrics.init (by decide)⟩

/-- C4 (evaluation at the failing input): `track_spend` performs no amount
validation — a call with amount -10 on counters at 50 is not rejected: it
decrements both counters to 40 and creates a ledger entry with amount -10,
although the model declares `MinValueValidator(0)` on these columns. -/
theorem track_spend_accepts_negative_amount :
    (track_spend negAmountCampaign (-10) STR_impression STR_system none none
      STR_empty TaskMetrics.init).1.daily_spend = 40 ∧
    (track_spend negAmountCampaign (-10) STR_impression STR_system none none
      STR_empty TaskMetrics.init).1.monthly_spend = 40 ∧
    ((track_spend negAmountCampaign (-10) STR_impression STR_system none none
      STR_empty TaskMetrics.init).2.1.map SpendRecord.amount) = [-10] := by
  decide

/-- C6: reactivation on reset requires both budgets satisfied post-reset:
for an inactive campaign, the daily reset reactivates iff the zeroed daily
counter and the untouched monthly counter are both within budget, and
symmetrically for the monthly reset. -/
theorem reset_reactivation_requires_both_budgets (today first_of_month : Nat)
    (c : Campaign) (m m2 : TaskMetrics) (h : c.is_active = false) :
    ((reset_daily_campaign today c m).1.is_active = true ↔
      (0 ≤ c.brand.daily_budget ∧ c.monthly_spend ≤ c.brand.monthly_budget)) ∧
    ((reset_monthly_campaign today first_of_month c m2).1.is_active = true ↔
      (c.daily_spend ≤ c.brand.daily_budget ∧ 0 ≤ c.brand.monthly_budget)) := by
  constructor
  · simp only [reset_daily_campaign]
    split
    · rename_i hr
      simp only [h, Bool.not_false, Bool.true_and, Bool.and_eq_true,
        decide_eq_true_eq] at hr
      simp [hr]
    · rename_i hr
      simp only [h, Bool.not_false, Bool.true_and, Bool.and_eq_true,
        decide_eq_true_eq] at hr
      simp [h]
      intro h1
      by_contra h2
      exact hr ⟨h1, not_lt.mp h2⟩
  · simp only [reset_monthly_campaign]
    split
    · rename_i hr
      simp only [h, Bool.not_false, Bool.true_and, Bool.and_eq_true,
        decide_eq_true_eq] at hr
      simp [hr]
    · rename_i hr
      simp only [h, Bool.not_false, Bool.true_and, Bool.and_eq_true,
        decide_eq_true_eq] at hr
      simp [h]
      intro h1
      by_contra h2
      exact hr ⟨h1, not_lt.mp h2⟩

/-- C6 witness: the campaign at (80, 1200) under budgets (100, 1000). -/
theorem reset_reactivation_requires_both_budgets_witness :
    pausedOverMonthly.is_active = false ∧
    (((reset_daily_campaign 5 pausedOverMonthly TaskMetrics.init).1.is_active =
        true ↔
      (0 ≤ pausedOverMonthly.brand.daily_budget ∧
        pausedOverMonthly.monthly_spend ≤
          pausedOverMonthly.brand.monthly_budget)) ∧
    ((reset_monthly_campaign 5 3 pausedOverMonthly
        TaskMetrics.init).1.is_active = true ↔
      (pausedOverMonthly.daily_spend ≤ pausedOverMonthly.brand.daily_budget ∧
        0 ≤ pausedOverMonthly.brand.monthly_budget))) :=
  ⟨by decide,
    reset_reactivation_requires_both_budgets 5 3 pausedOverMonthly
      TaskMetrics.init TaskMetrics.init (by decide)⟩

/-- C10: when the pre-reset counter is positive, the budget_reset audit
record written by a reset carries the pre-reset counter as its amount, but
its before/after snapshots of the reset counter are both 0, because the
snapshots are read from the campaign after its counter was zeroed. -/
theorem reset_audit_record_snapshots (today first_of_month : Nat)
    (c : Campaign) (m m2 : TaskMetrics)
    (hd : 0 < c.daily_spend) (hm : 0 < c.monthly_spend) :
    (∃ r, (reset_daily_campaign today c m).2.1 = [r] ∧
      r.amount = c.daily_spend ∧
      r.daily_spend_before = some 0 ∧ r.daily_spend_after = some 0) ∧
    (∃ r, (reset_monthly_campaign today first_of_month c m2).2.1 = [r] ∧
      r.amount = c.monthly_spend ∧
      r.monthly_spend_before = some 0 ∧ r.monthly_spend_after = some 0) := by
  constructor
  · simp only [reset_daily_campaign, create_spend_record_for_reset, if_pos hd]
    split <;> exact ⟨_, rfl, rfl, rfl, rfl⟩
  · simp only [reset_monthly_campaign, create_spend_record_for_reset, if_pos hm]
    split <;> exact ⟨_, rfl, rfl, rfl, rfl⟩

/-- C10 witness: a campaign with positive counters (80, 1200). -/
theorem reset_audit_record_snapshots_witness :
    0 < pausedOverMonthly.daily_spend ∧ 0 < pausedOverMonthly.monthly_spend ∧
    ((∃ r, (reset_daily_campaign 5 pausedOverMonthly TaskMetrics.init).2.1 =
        [r] ∧
      r.amount = pausedOverMonthly.daily_spend ∧
      r.daily_spend_before = some 0 ∧ r.daily_spend_after = some 0) ∧
    (∃ r, (reset_monthly_campaign 5 3 pausedOverMonthly
        TaskMetrics.init).2.1 = [r] ∧
      r.amount = pausedOverMonthly.monthly_spend ∧
      r.monthly_spend_before = some 0 ∧ r.monthly_spend_after = some 0)) :=
  ⟨by decide, by decide,
    reset_audit_record_snapshots 5 3 pausedOverMonthly TaskMetrics.init
      TaskMetrics.init (by decide) (by decide)⟩

/-- Every campaign coming out of a daily-reset sweep carries today's
`last_daily_reset` marker. -/
theorem reset_daily_spend_marker (today : Nat) (cs : List Campaign)
    (m : TaskMetrics) :
    ∀ c ∈ (reset_daily_spend today cs m).1, c.last_daily_reset = some today := by
  induction cs generalizing m with
  | nil => simp [reset_daily_spend]
  | cons c rest ih =>
    by_cases hc : c.last_daily_reset = some today
    · simp only [reset_daily_spend, if_pos hc]
      intro x hx
      rcases List.mem_cons.mp hx with hx | hx
      · exact hx ▸ hc
      · exact ih m x hx
    · simp only [reset_daily_spend, if_neg hc]
      intro x hx
      rcases List.mem_cons.mp hx with hx | hx
      · subst hx
        simp only [reset_daily_campaign]
        split <;> rfl
      · exact ih _ x hx

/-- A daily-reset sweep over campaigns all stamped with today's marker
touches nothing: the rows are returned as they are, no audit record is
created, the metrics are unchanged. -/
theorem reset_daily_spend_noop (today : Nat) (cs : List Campaign)
    (m : TaskMetrics) (h : ∀ c ∈ cs, c.last_daily_reset = some today) :
    reset_daily_spend today cs m = (cs, [], m) := by
  induction cs generalizing m with
  | nil => rfl
  | cons c rest ih =>
    have hc : c.last_daily_reset = some today := h c (List.mem_cons_self c rest)
    have hrest : ∀ x ∈ rest, x.last_daily_reset = some today :=
      fun x hx => h x (List.mem_cons_of_mem c hx)
    simp [reset_daily_spend, hc, ih m hrest]

/-- C5: invoking `reset_daily_spend` a second time on the same day is a
no-op: the second call returns every campaign row unchanged (counters,
markers and `is_active` included), creates no record and leaves its metrics
untouched, because every row already carries today's marker. -/
theorem reset_daily_spend_idempotent (today : Nat) (cs : List Campaign)
    (m m2 : TaskMetrics) :
    reset_daily_spend today (reset_daily_spend today cs m).1 m2 =
      ((reset_daily_spend today cs m).1, [], m2) :=
  reset_daily_spend_noop today _ m2 (reset_daily_spend_marker today cs m)

/-- Python's lexicographic time comparison agrees with comparing seconds
since midnight, for in-range time values. -/
theorem PyTime.le_iff_toSec (a b : PyTime) (ha : a.valid) (hb : b.valid) :
    PyTime.le a b = true ↔ a.toSec ≤ b.toSec := by
  obtain ⟨ha1, ha2, ha3⟩ := ha
  obtain ⟨hb1, hb2, hb3⟩ := hb
  simp only [PyTime.le, PyTime.toSec, Bool.or_eq_true, Bool.and_eq_true,
    decide_eq_true_eq]
  omega

/-- C8: `is_now_in_window` is false whenever the weekday is not in the
allowed day set; otherwise, for `start <= end` it holds iff the time of day
lies in the inclusive interval [start, end], and for `start > end`
(overnight wraparound) it holds iff the time of day is at or after start or
at or before end. -/
theorem is_now_in_window_iff (w : DaypartingWindow) (d : String) (t : PyTime)
    (hs : w.start_time.valid) (he : w.end_time.valid) (ht : t.valid) :
    is_now_in_window w d t = true ↔
      (d ∈ w.days_of_week ∧
        (if w.start_time.toSec ≤ w.end_time.toSec then
          w.start_time.toSec ≤ t.toSec ∧ t.toSec ≤ w.end_time.toSec
        else
          t.toSec ≥ w.start_time.toSec ∨ t.toSec ≤ w.end_time.toSec)) := by
  unfold is_now_in_window
  by_cases hd : d ∈ w.days_of_week
  · simp only [hd, if_true, true_and]
    by_cases hse : w.start_time.toSec ≤ w.end_time.toSec
    · rw [if_pos ((PyTime.le_iff_toSec _ _ hs he).mpr hse), if_pos hse]
      simp [Bool.and_eq_true, PyTime.le_iff_toSec _ _ hs ht,
        PyTime.le_iff_toSec _ _ ht he]
    · rw [if_neg (fun hc => hse ((PyTime.le_iff_toSec _ _ hs he).mp hc)),
        if_neg hse]
      simp [Bool.or_eq_true, PyTime.le_iff_toSec _ _ hs ht,
        PyTime.le_iff_toSec _ _ ht he, ge_iff_le]
  · simp [hd]

/-- C8 witness at the overnight window of the specification, 02:00 Monday. -/
theorem is_now_in_window_iff_witness :
    overnightWindow.start_time.valid ∧ overnightWindow.end_time.valid ∧
    twoAM.valid ∧
    (is_now_in_window overnightWindow STR_mon twoAM = true ↔
      (STR_mon ∈ overnightWindow.days_of_week ∧
        (if overnightWindow.start_time.toSec ≤ overnightWindow.end_time.toSec
        then
          overnightWindow.start_time.toSec ≤ twoAM.toSec ∧
            twoAM.toSec ≤ overnightWindow.end_time.toSec
        else
          twoAM.toSec ≥ overnightWindow.start_time.toSec ∨
            twoAM.toSec ≤ overnightWindow.end_time.toSec))) :=
  ⟨by decide, by decide, by decide,
    is_now_in_window_iff overnightWindow STR_mon twoAM (by decide) (by decide)
      (by decide)⟩

/-- C7 counterexample: a save that modifies the sealed `amount` field but
passes no `update_fields` bypasses the immutability guard entirely — it does
not raise, and it persists the changed amount over the stored row. -/
theorem spendrecord_plain_save_bypasses_guard :
    tamperedLedgerRow.amount ≠ storedLedgerRow.amount ∧
    SpendRecord.save storedLedgerRow tamperedLedgerRow none =
      Except.ok tamperedLedgerRow :=
  ⟨by decide, rfl⟩

/-- Writing an allowed column leaves the write-once core unchanged. -/
theorem setField_core_of_allowed (stored incoming : SpendRecord)
    (f : SpendRecordField) (hf : f ∈ allowed_update_fields) :
    (setField stored incoming f).core = stored.core := by
  fin_cases hf <;> rfl

/-- A column-wise update naming only allowed columns leaves the write-once
core unchanged. -/
theorem foldl_setField_core (incoming : SpendRecord)
    (flds : List SpendRecordField) (h : ∀ f ∈ flds, f ∈ allowed_update_fields)
    (stored : SpendRecord) :
    (flds.foldl (fun acc f => setField acc incoming f) stored).core =
      stored.core := by
  induction flds generalizing stored with
  | nil => rfl
  | cons f fs ih =>
    have h1 : f ∈ allowed_update_fields := h f (List.mem_cons_self f fs)
    have h2 : ∀ x ∈ fs, x ∈ allowed_update_fields := fun x hx =>
      h x (List.mem_cons_of_mem f hx)
    simp only [List.foldl_cons]
    rw [ih h2, setField_core_of_allowed stored incoming f h1]

/-- C7 amended: on a persisted row, a save whose `update_fields` names any
column other than description and updated_at raises the immutability error
(leaving the stored row as it was); a save whose `update_fields` names only
allowed columns succeeds and leaves every write-once column of the stored
row unchanged. The guard only inspects the `update_fields` argument: a save
without it is not checked (see the counterexample). -/
theorem spendrecord_save_guard (stored self : SpendRecord)
    (flds : List SpendRecordField) (hpk : self.pk.isSome = true) :
    ((∃ f ∈ flds, f ∉ allowed_update_fields) →
      SpendRecord.save stored self (some flds) = Except.error IMMUTABLE_MSG) ∧
    ((∀ f ∈ flds, f ∈ allowed_update_fields) →
      ∃ r, SpendRecord.save stored self (some flds) = Except.ok r ∧
        r.core = stored.core) := by
  constructor
  · rintro ⟨f, hf, hfa⟩
    have hall : (flds.all (fun f => decide (f ∈ allowed_update_fields))) = false := by
      cases hall : flds.all (fun f => decide (f ∈ allowed_update_fields)) with
      | false => rfl
      | true => exact absurd (by simpa using List.all_eq_true.mp hall f hf) hfa
    simp [SpendRecord.save, hpk, hall]
  · intro hall
    have hall2 : (flds.all (fun f => decide (f ∈ allowed_update_fields))) = true :=
      List.all_eq_true.mpr (fun f hf => by simpa using hall f hf)
    exact ⟨_, by simp [SpendRecord.save, hpk, hall2],
      foldl_setField_core self flds hall stored⟩

/-- C7 amended witness: update_fields naming the sealed amount column. -/
theorem spendrecord_save_guard_witness :
    tamperedLedgerRow.pk.isSome = true ∧
    (((∃ f ∈ [SpendRecordField.amount], f ∉ allowed_update_fields) →
      SpendRecord.save storedLedgerRow tamperedLedgerRow
        (some [SpendRecordField.amount]) = Except.error IMMUTABLE_MSG) ∧
    ((∀ f ∈ [SpendRecordField.amount], f ∈ allowed_update_fields) →
      ∃ r, SpendRecord.save storedLedgerRow tamperedLedgerRow
          (some [SpendRecordField.amount]) = Except.ok r ∧
        r.core = storedLedgerRow.core)) :=
  ⟨by decide,
    spendrecord_save_guard storedLedgerRow tamperedLedgerRow
      [SpendRecordField.amount] (by decide)⟩

/-- C3 counterexample: in the periodic budget check, a store failure while
processing the first row propagates out of the batch: the second row — due
and over budget, and paused when the batch contains it alone — is left
untouched (still active). -/
theorem check_service_aborts_on_row_failure :
    (check_spend_and_pause_service 15 1000 [failRow, nextRow]
      TaskMetrics.init).2.2.isSome = true ∧
    ((check_spend_and_pause_service 15 1000 [failRow, nextRow]
      TaskMetrics.init).1.map Campaign.is_active) = [false, true] ∧
    ((check_spend_and_pause_service 15 1000 [nextRow]
      TaskMetrics.init).1.map Campaign.is_active) = [false] := by
  decide

/-- Processing a batch whose prefix rows all have a working store splits:
the prefix is processed fully, then the suffix continues on the prefix's
metrics. -/
theorem check_rows_append (df : Nat) (now : Int) (pre rest : List CheckRow)
    (m : TaskMetrics) (h : ∀ r ∈ pre, r.stamp_save_ok = true) :
    check_rows df now (pre ++ rest) m =
      ((check_rows df now pre m).1 ++
        (check_rows df now rest (check_rows df now pre m).2.1).1,
       (check_rows df now rest (check_rows df now pre m).2.1).2) := by
  induction pre generalizing m with
  | nil => simp [check_rows]
  | cons r rs ih =>
    have hr : r.stamp_save_ok = true := h r (List.mem_cons_self r rs)
    have hrs : ∀ x ∈ rs, x.stamp_save_ok = true := fun x hx =>
      h x (List.mem_cons_of_mem r hx)
    simp only [List.cons_append, check_rows, hr]
    split
    · simp [ih _ hrs]
    · simp [ih _ hrs]

/-- C3 amended: in both batch operations a store failure while processing
one campaign row is counted in the run's error metric, but the exception is
re-raised and aborts the batch: the rows after the failing one are returned
untouched, while rows processed before it keep their committed updates (they
are not rolled back). For the periodic check the failing row keeps its
committed pause but not its check stamp; for the dayparting sweep the
failing row is unchanged. -/
theorem batch_row_failure_aborts (df : Nat) (now : Int)
    (pre post : List CheckRow) (bad : CheckRow) (m : TaskMetrics)
    (now_day : String) (now_time : PyTime) (sched : DaypartingSchedule)
    (drow : DayRow) (drest : List DayRow) (dm : TaskMetrics)
    (hpre1 : ∀ r ∈ pre, r.stamp_save_ok = true)
    (hpre2 : ∀ r ∈ pre, r.campaign.is_active = true)
    (hbact : bad.campaign.is_active = true)
    (hbfail : bad.stamp_save_ok = false)
    (hbdue : bad.campaign.last_budget_check = none)
    (hbover : bad.campaign.daily_spend > bad.campaign.brand.daily_budget)
    (hdsched : drow.campaign.dayparting_schedule = some sched)
    (hdact : drow.campaign.is_active = true)
    (hdfail : drow.save_ok = false)
    (hdwin : is_now_in_window
      { start_time := sched.start_time, end_time := sched.end_time,
        days_of_week :=
          sched.days_of_week.filter (fun d => decide (pyStrip d ∈ DAYS_OF_WEEK)) }
      now_day now_time = false) :
    ((check_spend_and_pause_service df now (pre ++ bad :: post) m).2.2 =
        some SAVE_FAILED_MSG ∧
      (check_spend_and_pause_service df now (pre ++ bad :: post) m).1 =
        (check_spend_and_pause_service df now pre m).1 ++
          { bad.campaign with is_active := false } ::
            (post.filter (fun r => r.campaign.is_active)).map
              CheckRow.campaign ∧
      (check_spend_and_pause_service df now
          (pre ++ bad :: post) m).2.1.errors =
        (check_spend_and_pause_service df now pre m).2.1.errors + 1) ∧
    (enforce_dayparting now_day now_time (drow :: drest) dm =
      (drow.campaign ::
          (drest.filter (fun r => r.campaign.dayparting_schedule.isSome)).map
            DayRow.campaign,
        { dm with
          campaigns_processed := dm.campaigns_processed + 1
          errors := dm.errors + 1 },
        some SAVE_FAILED_MSG)) := by
  have hfiltpre : pre.filter (fun r => r.campaign.is_active) = pre :=
    List.filter_eq_self.mpr hpre2
  constructor
  · have hfilt : (pre ++ bad :: post).filter (fun r => r.campaign.is_active) =
        pre ++ bad :: post.filter (fun r => r.campaign.is_active) := by
      simp [List.filter_append, hfiltpre, List.filter_cons, hbact]
    simp only [check_spend_and_pause_service, hfilt, hfiltpre,
      check_rows_append df now pre _ m hpre1]
    simp only [check_rows, hbdue, hbfail, Option.getD_none, sub_add_cancel,
      ge_iff_le, le_refl, if_true, Bool.false_eq_true, if_false]
    simp only [pause_if_budget_exceeded, if_pos (Or.inl hbover)]
    simp [hbdue]
  · have hfiltd : (drow :: drest).filter
        (fun r => r.campaign.dayparting_schedule.isSome) =
        drow :: drest.filter (fun r => r.campaign.dayparting_schedule.isSome) := by
      simp [List.filter_cons, hdsched]
    simp only [enforce_dayparting, hfiltd]
    simp only [enforce_rows, hdsched, hdwin, hdact, hdfail,
      Bool.false_eq_true, if_false, if_true]

/-- C3 amended witness at concrete batches: a working row, then a failing
row, then an untouched row, for both batch operations. -/
theorem batch_row_failure_aborts_witness :
    ((check_spend_and_pause_service 15 1000 ([okRow] ++ failRow :: [nextRow])
        TaskMetrics.init).2.2 = some SAVE_FAILED_MSG ∧
      (check_spend_and_pause_service 15 1000 ([okRow] ++ failRow :: [nextRow])
        TaskMetrics.init).1 =
        (check_spend_and_pause_service 15 1000 [okRow] TaskMetrics.init).1 ++
          { failRow.campaign with is_active := false } ::
            (([nextRow].filter (fun r => r.campaign.is_active)).map
              CheckRow.campaign) ∧
      (check_spend_and_pause_service 15 1000 ([okRow] ++ failRow :: [nextRow])
        TaskMetrics.init).2.1.errors =
        (check_spend_and_pause_service 15 1000 [okRow]
          TaskMetrics.init).2.1.errors + 1) ∧
    (enforce_dayparting STR_mon twoAM (dayFailRow :: [daySecondRow])
        TaskMetrics.init =
      (dayFailRow.campaign ::
          (([daySecondRow].filter
            (fun r => r.campaign.dayparting_schedule.isSome)).map
            DayRow.campaign),
        { TaskMetrics.init with
          campaigns_processed := TaskMetrics.init.campaigns_processed + 1
          errors := TaskMetrics.init.errors + 1 },
        some SAVE_FAILED_MSG)) :=
  batch_row_failure_aborts 15 1000 [okRow] [nextRow] failRow TaskMetrics.init
    STR_mon twoAM mondayNineToFive dayFailRow [daySecondRow] TaskMetrics.init
    (by decide) (by decide) (by decide) (by decide) (by decide) (by decide)
    (by decide) (by decide) (by decide) (by decide)

end AdBudget
